import Mathlib

/-!
# Heron Wellnest badge-and-achievements worker — verification development

Shallow embedding of the badge worker service: the activity-history
repositories (journal, gratitude, mood check-in, flip-and-feel), the
badge ledger, the four domain evaluation passes of `BadgeWorkerService`,
and the Pub/Sub controller's payload validation.

Timestamps (`created_at`, `checked_in_at`, `finished_at`) are modelled as
integers counting seconds since the epoch; `DATE(ts AT TIME ZONE 'UTC')`
is the floor division by 86400, yielding a UTC calendar-day number.
-/

/-! ## Data model (src/src/models) -/

/-- `journalEntry.model.ts`: a row of `journal_entries`.  Encrypted
title/content and the wellness state are opaque strings here — no query
under verification reads them. -/
structure JournalEntry where
  journal_id : String
  user_id : String
  title_encrypted : String
  content_encrypted : String
  is_deleted : Bool
  created_at : Int
  deriving DecidableEq, Repr

/-- `gratitudeEntry.model.ts`: a row of `gratitude_entries`. -/
structure GratitudeEntry where
  gratitude_id : String
  user_id : String
  content_encrypted : String
  is_deleted : Bool
  created_at : Int
  deriving DecidableEq, Repr

/-- `moodCheckIn.model.ts`: a row of `mood_check_ins` (no soft-delete flag). -/
structure MoodCheckIn where
  check_in_id : String
  user_id : String
  mood_1 : String
  checked_in_at : Int
  deriving DecidableEq, Repr

/-- `flipFeel.model.ts`: a row of `flip_feel`; `finished_at` is nullable
(`none` = session not completed). -/
structure FlipFeel where
  flip_feel_id : String
  user_id : String
  started_at : Option Int
  finished_at : Option Int
  deriving DecidableEq, Repr

/-- `flipFeelResponse.model.ts`: a row of `flip_feel_responses`, keyed to a
session, a question and a choice. -/
structure FlipFeelResponse where
  response_id : String
  flip_feel_id : String
  question_id : String
  choice_id : String
  deriving DecidableEq, Repr

/-- `flipFeelQuestions.model.ts`: a row of `flip_feel_questions`. -/
structure FlipFeelQuestion where
  question_id : String
  question_text : String
  category : String
  deriving DecidableEq, Repr

/-- `DATE(ts AT TIME ZONE 'UTC')` on an epoch-seconds timestamp: the UTC
calendar-day number (floor division, correct for negative timestamps). -/
def utcDate (ts : Int) : Int := Int.fdiv ts 86400

/-! ## The consecutive-days computation (shared SQL shape)

The three `hasConsecutiveDays` queries and the flip-and-feel variant all run
the same CTE chain over the set `s` of distinct qualifying UTC dates:

* `consecutive_days`: each date gets `grp = date - ROW_NUMBER()`, where
  `ROW_NUMBER() OVER (ORDER BY date)` on a set of distinct dates assigns
  `1 +` the number of strictly smaller dates in the set;
* `streak_lengths`: `COUNT(*) ... GROUP BY grp`;
* the result: `EXISTS (SELECT 1 FROM streak_lengths WHERE streak_length >= k)`.
-/

namespace Streak

/-- `ROW_NUMBER() OVER (ORDER BY date)` of date `d` in the distinct-date set
`s`: one plus the number of dates in `s` smaller than `d`. -/
def rowNumber (s : Finset Int) (d : Int) : Int :=
  ((s.filter (fun x => x < d)).card : Int) + 1

/-- `grp` column of the `consecutive_days` CTE: `date - ROW_NUMBER()`. -/
def grpKey (s : Finset Int) (d : Int) : Int := d - rowNumber s d

/-- `streak_length` of group `g`: `COUNT(*) ... GROUP BY grp`. -/
def streakLength (s : Finset Int) (g : Int) : Nat :=
  (s.filter (fun d => grpKey s d = g)).card

/-- The query result: some group has `streak_length >= k`.  Group keys are
exactly the `grpKey` values of members of `s`. -/
def existsStreakGe (s : Finset Int) (k : Nat) : Bool :=
  decide (∃ d ∈ s, k ≤ streakLength s (grpKey s d))

/-- Spec-side definition (from the spec's words): among the distinct activity
dates some run of day-adjacent dates with no gap has length at least `k`,
i.e. some date `d ∈ s` starts a run `d, d+1, …, d+k-1` entirely inside `s`. -/
def hasRun (s : Finset Int) (k : Nat) : Prop :=
  ∃ d ∈ s, ∀ j : Nat, j < k → d + (j : Int) ∈ s

instance (s : Finset Int) (k : Nat) : Decidable (hasRun s k) := by
  unfold hasRun; infer_instance

lemma filter_lt_succ (s : Finset Int) (d : Int) (hd : d ∈ s) :
    s.filter (fun x => x < d + 1) = insert d (s.filter (fun x => x < d)) := by
  ext x
  simp only [Finset.mem_filter, Finset.mem_insert]
  constructor
  · rintro ⟨hx, hlt⟩
    rcases lt_or_eq_of_le (Int.lt_add_one_iff.mp hlt) with h | h
    · exact Or.inr ⟨hx, h⟩
    · exact Or.inl h
  · rintro (rfl | ⟨hx, hlt⟩)
    · exact ⟨hd, by omega⟩
    · exact ⟨hx, by omega⟩

lemma grpKey_succ (s : Finset Int) (d : Int) (hd : d ∈ s) (_hd1 : d + 1 ∈ s) :
    grpKey s (d + 1) = grpKey s d := by
  have hnot : d ∉ s.filter (fun x => x < d) := by
    simp [Finset.mem_filter]
  have hcard : (s.filter (fun x => x < d + 1)).card
      = (s.filter (fun x => x < d)).card + 1 := by
    rw [filter_lt_succ s d hd, Finset.card_insert_of_not_mem hnot]
  unfold grpKey rowNumber
  rw [hcard]
  push_cast
  ring

lemma grpKey_run (s : Finset Int) (d : Int) (_hd : d ∈ s) (k : Nat)
    (hrun : ∀ j : Nat, j < k → d + (j : Int) ∈ s) :
    ∀ j : Nat, j < k → grpKey s (d + (j : Int)) = grpKey s d := by
  intro j
  induction j with
  | zero => intro _; norm_num
  | succ m ih =>
    intro hm
    have hmem : d + (m : Int) ∈ s := hrun m (by omega)
    have hmem1 : d + (m : Int) + 1 ∈ s := by
      have := hrun (m + 1) hm
      push_cast at this
      rw [← add_assoc] at this
      exact this
    have hstep : grpKey s (d + (m : Int) + 1) = grpKey s (d + (m : Int)) :=
      grpKey_succ s (d + (m : Int)) hmem hmem1
    have : grpKey s (d + ((m : Int) + 1)) = grpKey s (d + (m : Int)) := by
      rw [show d + ((m : Int) + 1) = d + (m : Int) + 1 by ring, hstep]
    push_cast
    rw [this]
    exact ih (by omega)

/-- A run of length `k` starting at `d ∈ s` makes the group of `d` have at
least `k` members. -/
lemma streakLength_ge_of_run (s : Finset Int) (d : Int) (hd : d ∈ s) (k : Nat)
    (hrun : ∀ j : Nat, j < k → d + (j : Int) ∈ s) :
    k ≤ streakLength s (grpKey s d) := by
  unfold streakLength
  have hmaps : ∀ j ∈ Finset.range k,
      d + (j : Int) ∈ s.filter (fun x => grpKey s x = grpKey s d) := by
    intro j hj
    rw [Finset.mem_range] at hj
    exact Finset.mem_filter.mpr ⟨hrun j hj, grpKey_run s d hd k hrun j hj⟩
  have hinj : Set.InjOn (fun j : Nat => d + (j : Int)) (Finset.range k) := by
    intro a _ b _ hab
    simp only at hab
    omega
  calc k = (Finset.range k).card := (Finset.card_range k).symm
    _ ≤ _ := Finset.card_le_card_of_injOn _ hmaps hinj

/-- Two dates with the same group key enclose only dates of `s`: every
integer in `[x, y)` belongs to `s`. -/
lemma interval_subset_of_grpKey_eq (s : Finset Int) (x y : Int)
    (_hx : x ∈ s) (_hy : y ∈ s) (hxy : x ≤ y)
    (hkey : grpKey s x = grpKey s y) :
    ∀ z : Int, x ≤ z → z < y → z ∈ s := by
  have hsub : s.filter (fun t => t < x) ⊆ s.filter (fun t => t < y) := by
    intro t ht
    rw [Finset.mem_filter] at ht ⊢
    exact ⟨ht.1, by omega⟩
  have hdiff : s.filter (fun t => t < y) \ s.filter (fun t => t < x)
      = s.filter (fun t => x ≤ t ∧ t < y) := by
    ext t
    simp only [Finset.mem_sdiff, Finset.mem_filter]
    constructor
    · rintro ⟨⟨ht, hty⟩, hnot⟩
      refine ⟨ht, ?_, hty⟩
      by_contra hcon
      exact hnot ⟨ht, by omega⟩
    · rintro ⟨ht, htx, hty⟩
      exact ⟨⟨ht, hty⟩, fun hmem => by omega⟩
  have hcards : (s.filter (fun t => x ≤ t ∧ t < y)).card
      = ((s.filter (fun t => t < y)).card - (s.filter (fun t => t < x)).card : Nat) := by
    rw [← hdiff, Finset.card_sdiff hsub]
  have hkey2 : y - x = ((s.filter (fun t => t < y)).card : Int)
      - ((s.filter (fun t => t < x)).card : Int) := by
    unfold grpKey rowNumber at hkey
    omega
  have hle : (s.filter (fun t => t < x)).card ≤ (s.filter (fun t => t < y)).card :=
    Finset.card_le_card hsub
  have hcardZ : ((s.filter (fun t => x ≤ t ∧ t < y)).card : Int) = y - x := by
    rw [hcards]
    omega
  have hsubIco : s.filter (fun t => x ≤ t ∧ t < y) ⊆ Finset.Ico x y := by
    intro t ht
    rw [Finset.mem_filter] at ht
    rw [Finset.mem_Ico]
    exact ht.2
  have hIcoCard : (Finset.Ico x y).card = (y - x).toNat := Int.card_Ico x y
  have heq : s.filter (fun t => x ≤ t ∧ t < y) = Finset.Ico x y := by
    apply Finset.eq_of_subset_of_card_le hsubIco
    rw [hIcoCard]
    omega
  intro z hxz hzy
  have : z ∈ Finset.Ico x y := Finset.mem_Ico.mpr ⟨hxz, hzy⟩
  rw [← heq] at this
  exact (Finset.mem_filter.mp this).1

/-- A group of size at least `k ≥ 1` yields a run of length `k`. -/
lemma run_of_streakLength_ge (s : Finset Int) (g : Int) (k : Nat)
    (hk : 1 ≤ k) (hcard : k ≤ streakLength s g) : hasRun s k := by
  unfold streakLength at hcard
  set T := s.filter (fun d => grpKey s d = g) with hT
  have hne : T.Nonempty := Finset.card_pos.mp (by omega)
  set x := T.min' hne with hxdef
  set y := T.max' hne with hydef
  have hxT : x ∈ T := T.min'_mem hne
  have hyT : y ∈ T := T.max'_mem hne
  have hxs : x ∈ s := (Finset.mem_filter.mp hxT).1
  have hys : y ∈ s := (Finset.mem_filter.mp hyT).1
  have hxkey : grpKey s x = g := (Finset.mem_filter.mp hxT).2
  have hykey : grpKey s y = g := (Finset.mem_filter.mp hyT).2
  have hxy : x ≤ y := T.min'_le y hyT
  have hinterval := interval_subset_of_grpKey_eq s x y hxs hys hxy
    (by rw [hxkey, hykey])
  have hTIcc : T ⊆ Finset.Icc x y := by
    intro t ht
    rw [Finset.mem_Icc]
    exact ⟨T.min'_le t ht, T.le_max' t ht⟩
  have hIccCard : (Finset.Icc x y).card = (y + 1 - x).toNat := Int.card_Icc x y
  have hky : (k : Int) ≤ y + 1 - x := by
    have h1 : T.card ≤ (Finset.Icc x y).card := Finset.card_le_card hTIcc
    rw [hIccCard] at h1
    omega
  refine ⟨x, hxs, fun j hj => ?_⟩
  rcases lt_or_eq_of_le (show x + (j : Int) ≤ y by omega) with h | h
  · exact hinterval (x + (j : Int)) (by omega) h
  · rw [h]; exact hys

/-- The rank-grouping query answers exactly the longest-run question. -/
lemma existsStreakGe_iff_hasRun (s : Finset Int) (k : Nat) :
    existsStreakGe s k = true ↔ hasRun s k := by
  unfold existsStreakGe
  rw [decide_eq_true_iff]
  constructor
  · rintro ⟨d, hd, hlen⟩
    rcases Nat.eq_zero_or_pos k with rfl | hk
    · exact ⟨d, hd, fun j hj => absurd hj (Nat.not_lt_zero j)⟩
    · exact run_of_streakLength_ge s (grpKey s d) k hk hlen
  · rintro ⟨d, hd, hrun⟩
    exact ⟨d, hd, streakLength_ge_of_run s d hd k hrun⟩

end Streak

/-! ## Activity History Store (src repositories)

Each repository method runs one SQL query; here the table contents are the
explicit list arguments and each method is the query's meaning over them. -/

namespace JournalEntryRepository

/-- `WHERE user_id = $1 AND is_deleted = false` over `journal_entries`. -/
def qualEntries (es : List JournalEntry) (uid : String) : List JournalEntry :=
  es.filter (fun e => e.user_id == uid && !e.is_deleted)

/-- `SELECT DISTINCT DATE(created_at AT TIME ZONE 'UTC') … ` — the distinct
UTC dates of the user's non-deleted entries (`daily_entries` CTE). -/
def entryDates (es : List JournalEntry) (uid : String) : Finset Int :=
  ((qualEntries es uid).map (fun e => utcDate e.created_at)).toFinset

/-- `SELECT EXISTS(SELECT 1 FROM journal_entries WHERE user_id = $1 AND
is_deleted = false LIMIT 1)`. -/
def hasFirstEntry (es : List JournalEntry) (uid : String) : Bool :=
  decide (qualEntries es uid ≠ [])

/-- The consecutive-days CTE query of `journalEntry.repository.ts`. -/
def hasConsecutiveDays (es : List JournalEntry) (uid : String) (k : Nat) : Bool :=
  Streak.existsStreakGe (entryDates es uid) k

/-- `SELECT (COUNT(*) >= $2) FROM journal_entries WHERE user_id = $1 AND
is_deleted = false`. -/
def hasReachedEntryCount (es : List JournalEntry) (uid : String) (n : Nat) : Bool :=
  decide (n ≤ (qualEntries es uid).length)

end JournalEntryRepository

namespace GratitudeEntryRepository

/-- `WHERE user_id = $1 AND is_deleted = false` over `gratitude_entries`. -/
def qualEntries (es : List GratitudeEntry) (uid : String) : List GratitudeEntry :=
  es.filter (fun e => e.user_id == uid && !e.is_deleted)

/-- Distinct UTC dates of the user's non-deleted gratitude entries. -/
def entryDates (es : List GratitudeEntry) (uid : String) : Finset Int :=
  ((qualEntries es uid).map (fun e => utcDate e.created_at)).toFinset

/-- `SELECT EXISTS(… WHERE user_id = $1 AND is_deleted = false …)`. -/
def hasFirstEntry (es : List GratitudeEntry) (uid : String) : Bool :=
  decide (qualEntries es uid ≠ [])

/-- `SELECT (COUNT(*) >= $2) …` over non-deleted gratitude entries. -/
def hasReachedEntryCount (es : List GratitudeEntry) (uid : String) (n : Nat) : Bool :=
  decide (n ≤ (qualEntries es uid).length)

/-- The consecutive-days CTE query of `gratitudeEntry.repository.ts`. -/
def hasConsecutiveDays (es : List GratitudeEntry) (uid : String) (k : Nat) : Bool :=
  Streak.existsStreakGe (entryDates es uid) k

end GratitudeEntryRepository

namespace MoodCheckInRepository

/-- `WHERE user_id = $1` over `mood_check_ins` (the table has no
soft-delete flag and the query no `is_deleted` condition). -/
def qualEntries (es : List MoodCheckIn) (uid : String) : List MoodCheckIn :=
  es.filter (fun e => e.user_id == uid)

/-- Distinct UTC dates of the user's mood check-ins (`daily_checkins` CTE). -/
def checkinDates (es : List MoodCheckIn) (uid : String) : Finset Int :=
  ((qualEntries es uid).map (fun e => utcDate e.checked_in_at)).toFinset

/-- The consecutive-days CTE query of `moodCheckIn.repository.ts`. -/
def hasConsecutiveDays (es : List MoodCheckIn) (uid : String) (k : Nat) : Bool :=
  Streak.existsStreakGe (checkinDates es uid) k

end MoodCheckInRepository

namespace FlipFeelRepository

/-- `WHERE user_id = $1 AND finished_at IS NOT NULL` over `flip_feel`. -/
def completedSessions (fs : List FlipFeel) (uid : String) : List FlipFeel :=
  fs.filter (fun f => f.user_id == uid && f.finished_at.isSome)

/-- `SELECT EXISTS(… WHERE user_id = $1 AND finished_at IS NOT NULL …)`. -/
def hasFirstEntry (fs : List FlipFeel) (uid : String) : Bool :=
  decide (completedSessions fs uid ≠ [])

/-- Distinct UTC dates of `finished_at` over the user's completed sessions
(`daily_sessions` CTE). -/
def sessionDates (fs : List FlipFeel) (uid : String) : Finset Int :=
  ((completedSessions fs uid).filterMap
    (fun f => f.finished_at.map utcDate)).toFinset

/-- The consecutive-days CTE query of `flipFeel.repository.ts` (over
completion dates). -/
def hasConsecutiveDays (fs : List FlipFeel) (uid : String) (k : Nat) : Bool :=
  Streak.existsStreakGe (sessionDates fs uid) k

/-- Categories produced by `flip_feel ⋈ flip_feel_responses ⋈
flip_feel_questions` restricted to the user's completed sessions and to
`q.category = ANY(validCategories)`; `DISTINCT` via `toFinset`. -/
def answeredCategories (fs : List FlipFeel) (rs : List FlipFeelResponse)
    (qs : List FlipFeelQuestion) (uid : String)
    (validCategories : List String) : Finset String :=
  ((((completedSessions fs uid).flatMap
      (fun f => rs.filter (fun r => r.flip_feel_id == f.flip_feel_id))).flatMap
      (fun r => (qs.filter (fun q => q.question_id == r.question_id)).map
        (fun q => q.category))).filter
      (fun c => validCategories.contains c)).toFinset

/-- `SELECT (COUNT(DISTINCT q.category) >= $2) …` with `$2 =
validCategories.length`. -/
def hasCompletedAllCategories (fs : List FlipFeel) (rs : List FlipFeelResponse)
    (qs : List FlipFeelQuestion) (uid : String)
    (validCategories : List String) : Bool :=
  decide (validCategories.length ≤
    (answeredCategories fs rs qs uid validCategories).card)

end FlipFeelRepository

/-! ## Badge Ledger and the evaluation passes (`badgeWorker.service.ts`)

A pass's interaction with storage is threaded explicitly: the ledger is the
list of `(user_id, badge_name)` grant records, each repository call yields
`Except` (success or a propagated storage error, as the `await`ed promises
either resolve or throw — the service's `catch` block only logs and
re-throws), and the pass records every `grantBadgeByName` invocation. -/

/-- Storage errors: opaque messages, propagated unchanged. -/
abbrev StorageErr := String

/-- The grant table: `(user_id, badge_name)` records. -/
abbrev Ledger := List (String × String)

/-- State threaded through one evaluation pass: the ledger plus the badge
names passed to `grantBadgeByName` so far (the invocation trace). -/
structure PassState where
  ledger : Ledger
  calls : List String
  deriving DecidableEq, Repr

/-- The `BadgesRepository` interface as used by the service: fetch a user's
grants, insert a grant.  Either call may fail. -/
structure BadgeOps where
  getUserBadges : Ledger → String → Except StorageErr (List String)
  grantBadgeByName : Ledger → String → String → Except StorageErr Ledger

/-- `JournalEntryRepository` interface as consumed by the service. -/
structure JournalQueries where
  hasFirstEntry : String → Except StorageErr Bool
  hasConsecutiveDays : String → Nat → Except StorageErr Bool
  hasReachedEntryCount : String → Nat → Except StorageErr Bool

/-- `GratitudeEntryRepository` interface as consumed by the service. -/
structure GratitudeQueries where
  hasFirstEntry : String → Except StorageErr Bool
  hasReachedEntryCount : String → Nat → Except StorageErr Bool
  hasConsecutiveDays : String → Nat → Except StorageErr Bool

/-- `MoodCheckInRepository` interface as consumed by the service. -/
structure MoodQueries where
  hasConsecutiveDays : String → Nat → Except StorageErr Bool

/-- `FlipFeelRepository` interface as consumed by the service. -/
structure FlipFeelQueries where
  hasFirstEntry : String → Except StorageErr Bool
  hasCompletedAllCategories : String → List String → Except StorageErr Bool
  hasConsecutiveDays : String → Nat → Except StorageErr Bool

/-- One rule block of a worker:
`if (!badgeNames.has(name)) { if (await pred) { await grantBadgeByName } }`.
A thrown error (from the predicate query or the grant) aborts the pass. -/
def ruleStep (ops : BadgeOps) (uid : String) (badgeNames : Finset String)
    (name : String) (pred : Except StorageErr Bool) (st : PassState) :
    PassState × Except StorageErr Unit :=
  if name ∈ badgeNames then (st, Except.ok ())
  else
    match pred with
    | Except.error e => (st, Except.error e)
    | Except.ok false => (st, Except.ok ())
    | Except.ok true =>
      match ops.grantBadgeByName st.ledger uid name with
      | Except.error e => ({ st with calls := st.calls ++ [name] }, Except.error e)
      | Except.ok L2 => ({ ledger := L2, calls := st.calls ++ [name] }, Except.ok ())

/-- The sequential rule blocks of a worker body, in source order; the first
error short-circuits the rest. -/
def runRules (ops : BadgeOps) (uid : String) (badgeNames : Finset String) :
    List (String × Except StorageErr Bool) → PassState →
      PassState × Except StorageErr Unit
  | [], st => (st, Except.ok ())
  | r :: rs, st =>
    match ruleStep ops uid badgeNames r.1 r.2 st with
    | (st2, Except.ok _) => runRules ops uid badgeNames rs st2
    | (st2, Except.error e) => (st2, Except.error e)

namespace BadgeWorkerService

/-- The `badges` record of `BadgeWorkerService`: rule key → badge name. -/
def badges_JOURNAL_FIRST_ENTRY : String := "New Beginnings"

def badges_JOURNAL_3_STREAK : String := "Mindful Momentum"

def badges_JOURNAL_7_STREAK : String := "Mind Gardener"

def badges_JOURNAL_10_ENTRIES : String := "Voice of Reflection"

def badges_JOURNAL_20_ENTRIES : String := "Journey Within"

def badges_JOURNAL_30_ENTRIES : String := "Keeper of Insight"

def badges_FLIP_AND_FEEL_FIRST : String := "First Step Inward"

def badges_FLIP_AND_FEEL_ALL_CATEGORIES : String := "Emotional Explorer"

def badges_FLIP_AND_FEEL_7_STREAK : String := "Steady Self-Reflector"

def badges_GRATITUDE_FIRST_ENTRY : String := "Grateful Heart"

def badges_GRATITUDE_10_ENTRIES : String := "Growing Gratitude"

def badges_GRATITUDE_25_ENTRIES : String := "Mindful Appreciator"

def badges_GRATITUDE_50_ENTRIES : String := "Beacon of Gratitude"

def badges_GRATITUDE_100_ENTRIES : String := "Radiant Gratitude"

def badges_GRATITUDE_3_STREAK : String := "Thankful Thinker"

def badges_GRATITUDE_7_STREAK : String := "Appreciation Advocate"

def badges_MOOD_CHECKIN_7_STREAK : String := "Steady Observer"

def badges_MOOD_CHECKIN_14_STREAK : String := "Balanced Mind Keeper"

/-- The literal category list built in `flipAndFeelBadgeWorker`. -/
def validCategories : List String :=
  ["school", "opposite_sex", "peers", "family", "crises", "emotions", "recreation"]

/-- `journalBadgeWorker`: load the grant set once
(`new Set(userBadges.map(b => b.badge_name))`), then the six rule blocks in
source order. -/
def journalBadgeWorker (jq : JournalQueries) (ops : BadgeOps) (uid : String)
    (L : Ledger) : PassState × Except StorageErr Unit :=
  match ops.getUserBadges L uid with
  | Except.error e => ({ ledger := L, calls := [] }, Except.error e)
  | Except.ok userBadges =>
    runRules ops uid userBadges.toFinset
      [(badges_JOURNAL_FIRST_ENTRY, jq.hasFirstEntry uid),
       (badges_JOURNAL_3_STREAK, jq.hasConsecutiveDays uid 3),
       (badges_JOURNAL_7_STREAK, jq.hasConsecutiveDays uid 7),
       (badges_JOURNAL_10_ENTRIES, jq.hasReachedEntryCount uid 10),
       (badges_JOURNAL_20_ENTRIES, jq.hasReachedEntryCount uid 20),
       (badges_JOURNAL_30_ENTRIES, jq.hasReachedEntryCount uid 30)]
      { ledger := L, calls := [] }

/-- `flipAndFeelBadgeWorker`: the three reflection rule blocks. -/
def flipAndFeelBadgeWorker (fq : FlipFeelQueries) (ops : BadgeOps)
    (uid : String) (L : Ledger) : PassState × Except StorageErr Unit :=
  match ops.getUserBadges L uid with
  | Except.error e => ({ ledger := L, calls := [] }, Except.error e)
  | Except.ok userBadges =>
    runRules ops uid userBadges.toFinset
      [(badges_FLIP_AND_FEEL_FIRST, fq.hasFirstEntry uid),
       (badges_FLIP_AND_FEEL_ALL_CATEGORIES,
         fq.hasCompletedAllCategories uid validCategories),
       (badges_FLIP_AND_FEEL_7_STREAK, fq.hasConsecutiveDays uid 7)]
      { ledger := L, calls := [] }

/-- `moodBadgeWorker`: the two mood-check-in rule blocks. -/
def moodBadgeWorker (mq : MoodQueries) (ops : BadgeOps) (uid : String)
    (L : Ledger) : PassState × Except StorageErr Unit :=
  match ops.getUserBadges L uid with
  | Except.error e => ({ ledger := L, calls := [] }, Except.error e)
  | Except.ok userBadges =>
    runRules ops uid userBadges.toFinset
      [(badges_MOOD_CHECKIN_7_STREAK, mq.hasConsecutiveDays uid 7),
       (badges_MOOD_CHECKIN_14_STREAK, mq.hasConsecutiveDays uid 14)]
      { ledger := L, calls := [] }

/-- `gratitudeBadgeWorker`: the seven gratitude rule blocks. -/
def gratitudeBadgeWorker (gq : GratitudeQueries) (ops : BadgeOps)
    (uid : String) (L : Ledger) : PassState × Except StorageErr Unit :=
  match ops.getUserBadges L uid with
  | Except.error e => ({ ledger := L, calls := [] }, Except.error e)
  | Except.ok userBadges =>
    runRules ops uid userBadges.toFinset
      [(badges_GRATITUDE_FIRST_ENTRY, gq.hasFirstEntry uid),
       (badges_GRATITUDE_10_ENTRIES, gq.hasReachedEntryCount uid 10),
       (badges_GRATITUDE_25_ENTRIES, gq.hasReachedEntryCount uid 25),
       (badges_GRATITUDE_50_ENTRIES, gq.hasReachedEntryCount uid 50),
       (badges_GRATITUDE_100_ENTRIES, gq.hasReachedEntryCount uid 100),
       (badges_GRATITUDE_3_STREAK, gq.hasConsecutiveDays uid 3),
       (badges_GRATITUDE_7_STREAK, gq.hasConsecutiveDays uid 7)]
      { ledger := L, calls := [] }

end BadgeWorkerService

/-! ## Pure instantiations of the storage interfaces -/

/-- Modelled from the spec: `badges.repository.ts` (class `BadgesRepository`)
is not among the source files — only its callers are.  Per the spec the
ledger is a grant table keyed by `(user_id, badge_name)` with a uniqueness
constraint, and `getUserBadges` returns the user's current grants. -/
def getUserBadgesPure (L : Ledger) (uid : String) : List String :=
  (L.filter (fun r => r.1 == uid)).map (fun r => r.2)

/-- Modelled from the spec: `grantBadgeByName` of the missing
`badges.repository.ts` — an idempotent insert: no error, no duplicate, no
side effect beyond the first grant. -/
def grantBadgeByNamePure (L : Ledger) (uid badge : String) : Ledger :=
  if (uid, badge) ∈ L then L else L ++ [(uid, badge)]

/-- The ledger interface backed by the pure (never-failing) model. -/
def badgeOpsPure : BadgeOps where
  getUserBadges L uid := Except.ok (getUserBadgesPure L uid)
  grantBadgeByName L uid badge := Except.ok (grantBadgeByNamePure L uid badge)

/-- Journal queries answered by the embedded repository over a fixed table. -/
def journalQueriesOf (es : List JournalEntry) : JournalQueries where
  hasFirstEntry uid := Except.ok (JournalEntryRepository.hasFirstEntry es uid)
  hasConsecutiveDays uid k :=
    Except.ok (JournalEntryRepository.hasConsecutiveDays es uid k)
  hasReachedEntryCount uid n :=
    Except.ok (JournalEntryRepository.hasReachedEntryCount es uid n)

/-- Gratitude queries answered by the embedded repository. -/
def gratitudeQueriesOf (es : List GratitudeEntry) : GratitudeQueries where
  hasFirstEntry uid := Except.ok (GratitudeEntryRepository.hasFirstEntry es uid)
  hasReachedEntryCount uid n :=
    Except.ok (GratitudeEntryRepository.hasReachedEntryCount es uid n)
  hasConsecutiveDays uid k :=
    Except.ok (GratitudeEntryRepository.hasConsecutiveDays es uid k)

/-- Mood queries answered by the embedded repository. -/
def moodQueriesOf (es : List MoodCheckIn) : MoodQueries where
  hasConsecutiveDays uid k :=
    Except.ok (MoodCheckInRepository.hasConsecutiveDays es uid k)

/-- Flip-and-feel queries answered by the embedded repository. -/
def flipFeelQueriesOf (fs : List FlipFeel) (rs : List FlipFeelResponse)
    (qs : List FlipFeelQuestion) : FlipFeelQueries where
  hasFirstEntry uid := Except.ok (FlipFeelRepository.hasFirstEntry fs uid)
  hasCompletedAllCategories uid cats :=
    Except.ok (FlipFeelRepository.hasCompletedAllCategories fs rs qs uid cats)
  hasConsecutiveDays uid k :=
    Except.ok (FlipFeelRepository.hasConsecutiveDays fs uid k)

/-- Ledger after a sequence of grants for one user. -/
def applyGrants (L : Ledger) (uid : String) (names : List String) : Ledger :=
  names.foldl (fun M n => grantBadgeByNamePure M uid n) L

/-! ## Pub/Sub controller (`badgeWorker.controller.ts`)

Modelled from the decoded-payload stage on: the payload's two consumed
fields, the JavaScript falsiness check `!payload.eventType ||
!payload.userId` (a field is falsy when absent or the empty string), and the
`switch` that routes to a worker or answers 400. -/

namespace BadgeWorkerController

/-- Which badge worker method the controller invoked, and for which user. -/
inductive WorkerCall where
  | journal (uid : String)
  | flipAndFeel (uid : String)
  | mood (uid : String)
  | gratitude (uid : String)
  deriving DecidableEq, Repr

/-- The decoded `ActivityPayload`, keeping only the consumed fields; `none`
models an absent field. -/
structure ActivityPayload where
  eventType : Option String
  userId : Option String
  deriving DecidableEq, Repr

/-- JavaScript falsiness of an optional string field: absent or empty. -/
def isFalsyStr : Option String → Bool
  | none => true
  | some s => s == ""

/-- HTTP status answered and the worker invocation made, if any. -/
structure HandlerOutcome where
  status : Nat
  worker : Option WorkerCall
  deriving DecidableEq, Repr

/-- The four `eventType` values of the `switch` in `handleBadgeAwarding`. -/
def knownEventTypes : List String :=
  ["JOURNAL_ENTRY_CREATED", "FLIP_FEEL_ENTRY_CREATED",
   "MOOD_CHECKIN_CREATED", "GRATITUDE_ENTRY_CREATED"]

/-- `handleBadgeAwarding` from the payload-validation step: 400 when
`eventType` or `userId` is falsy, then the `switch` on `eventType` (unknown
values answer 400 without invoking a worker; a matched case invokes the
worker and answers 204). -/
def handleBadgeAwarding (p : ActivityPayload) : HandlerOutcome :=
  if isFalsyStr p.eventType || isFalsyStr p.userId then
    { status := 400, worker := none }
  else
    let uid := p.userId.getD ""
    let et := p.eventType.getD ""
    if et == "JOURNAL_ENTRY_CREATED" then
      { status := 204, worker := some (WorkerCall.journal uid) }
    else if et == "FLIP_FEEL_ENTRY_CREATED" then
      { status := 204, worker := some (WorkerCall.flipAndFeel uid) }
    else if et == "MOOD_CHECKIN_CREATED" then
      { status := 204, worker := some (WorkerCall.mood uid) }
    else if et == "GRATITUDE_ENTRY_CREATED" then
      { status := 204, worker := some (WorkerCall.gratitude uid) }
    else
      { status := 400, worker := none }

end BadgeWorkerController

/-! ## Rule tables of the four passes, with predicates evaluated purely -/

/-- The journal pass's rules: badge name and the evaluated predicate, in
source order. -/
def journalRulesEval (es : List JournalEntry) (uid : String) :
    List (String × Bool) :=
  [(BadgeWorkerService.badges_JOURNAL_FIRST_ENTRY,
      JournalEntryRepository.hasFirstEntry es uid),
   (BadgeWorkerService.badges_JOURNAL_3_STREAK,
      JournalEntryRepository.hasConsecutiveDays es uid 3),
   (BadgeWorkerService.badges_JOURNAL_7_STREAK,
      JournalEntryRepository.hasConsecutiveDays es uid 7),
   (BadgeWorkerService.badges_JOURNAL_10_ENTRIES,
      JournalEntryRepository.hasReachedEntryCount es uid 10),
   (BadgeWorkerService.badges_JOURNAL_20_ENTRIES,
      JournalEntryRepository.hasReachedEntryCount es uid 20),
   (BadgeWorkerService.badges_JOURNAL_30_ENTRIES,
      JournalEntryRepository.hasReachedEntryCount es uid 30)]

/-- The flip-and-feel pass's rules with predicates evaluated purely. -/
def flipRulesEval (fs : List FlipFeel) (rs : List FlipFeelResponse)
    (qs : List FlipFeelQuestion) (uid : String) : List (String × Bool) :=
  [(BadgeWorkerService.badges_FLIP_AND_FEEL_FIRST,
      FlipFeelRepository.hasFirstEntry fs uid),
   (BadgeWorkerService.badges_FLIP_AND_FEEL_ALL_CATEGORIES,
      FlipFeelRepository.hasCompletedAllCategories fs rs qs uid
        BadgeWorkerService.validCategories),
   (BadgeWorkerService.badges_FLIP_AND_FEEL_7_STREAK,
      FlipFeelRepository.hasConsecutiveDays fs uid 7)]

/-- The mood pass's rules with predicates evaluated purely. -/
def moodRulesEval (ms : List MoodCheckIn) (uid : String) :
    List (String × Bool) :=
  [(BadgeWorkerService.badges_MOOD_CHECKIN_7_STREAK,
      MoodCheckInRepository.hasConsecutiveDays ms uid 7),
   (BadgeWorkerService.badges_MOOD_CHECKIN_14_STREAK,
      MoodCheckInRepository.hasConsecutiveDays ms uid 14)]

/-- The gratitude pass's rules with predicates evaluated purely. -/
def gratitudeRulesEval (gs : List GratitudeEntry) (uid : String) :
    List (String × Bool) :=
  [(BadgeWorkerService.badges_GRATITUDE_FIRST_ENTRY,
      GratitudeEntryRepository.hasFirstEntry gs uid),
   (BadgeWorkerService.badges_GRATITUDE_10_ENTRIES,
      GratitudeEntryRepository.hasReachedEntryCount gs uid 10),
   (BadgeWorkerService.badges_GRATITUDE_25_ENTRIES,
      GratitudeEntryRepository.hasReachedEntryCount gs uid 25),
   (BadgeWorkerService.badges_GRATITUDE_50_ENTRIES,
      GratitudeEntryRepository.hasReachedEntryCount gs uid 50),
   (BadgeWorkerService.badges_GRATITUDE_100_ENTRIES,
      GratitudeEntryRepository.hasReachedEntryCount gs uid 100),
   (BadgeWorkerService.badges_GRATITUDE_3_STREAK,
      GratitudeEntryRepository.hasConsecutiveDays gs uid 3),
   (BadgeWorkerService.badges_GRATITUDE_7_STREAK,
      GratitudeEntryRepository.hasConsecutiveDays gs uid 7)]

/-- Rules of a table that pass the filter step (badge not yet granted) and
whose predicate holds — the badge names a pure pass grants. -/
def grantedOf (g : Finset String) (rules : List (String × Bool)) :
    List String :=
  (rules.filter (fun r => !(decide (r.1 ∈ g)) && r.2)).map (fun r => r.1)

/-- The grant set a pure pass loads from the ledger. -/
def loadedSet (L : Ledger) (uid : String) : Finset String :=
  (getUserBadgesPure L uid).toFinset

lemma ruleStep_pure (uid : String) (g : Finset String) (n : String) (b : Bool)
    (st : PassState) :
    ruleStep badgeOpsPure uid g n (Except.ok b) st =
      ((if !(decide (n ∈ g)) && b then
          { ledger := grantBadgeByNamePure st.ledger uid n,
            calls := st.calls ++ [n] }
        else st), Except.ok ()) := by
  unfold ruleStep badgeOpsPure
  by_cases hg : n ∈ g
  · simp [hg]
  · cases b <;> simp [hg]

lemma runRules_pure (uid : String) (g : Finset String)
    (rules : List (String × Bool)) (st : PassState) :
    runRules badgeOpsPure uid g
        (rules.map (fun r => (r.1, Except.ok r.2))) st =
      ({ ledger := applyGrants st.ledger uid (grantedOf g rules),
         calls := st.calls ++ grantedOf g rules }, Except.ok ()) := by
  induction rules generalizing st with
  | nil => simp [runRules, grantedOf, applyGrants]
  | cons r rs ih =>
    rcases r with ⟨n, b⟩
    rw [List.map_cons]
    show (match ruleStep badgeOpsPure uid g n (Except.ok b) st with
      | (st2, Except.ok _) =>
          runRules badgeOpsPure uid g
            (rs.map (fun r : String × Bool => (r.1, Except.ok r.2))) st2
      | (st2, Except.error e) => (st2, Except.error e)) = _
    rw [ruleStep_pure]
    by_cases h : !(decide (n ∈ g)) && b
    · rw [if_pos h]
      show runRules badgeOpsPure uid g
        (rs.map (fun r : String × Bool => (r.1, Except.ok r.2)))
        { ledger := grantBadgeByNamePure st.ledger uid n,
          calls := st.calls ++ [n] } = _
      rw [ih]
      have hgr : grantedOf g ((n, b) :: rs) = n :: grantedOf g rs := by
        unfold grantedOf
        simp [List.filter_cons, h]
      rw [hgr]
      have happ : applyGrants st.ledger uid (n :: grantedOf g rs)
          = applyGrants (grantBadgeByNamePure st.ledger uid n) uid
              (grantedOf g rs) := by
        unfold applyGrants
        rw [List.foldl_cons]
      rw [happ]
      simp
    · rw [if_neg h]
      show runRules badgeOpsPure uid g
        (rs.map (fun r : String × Bool => (r.1, Except.ok r.2))) st = _
      rw [ih]
      have hgr : grantedOf g ((n, b) :: rs) = grantedOf g rs := by
        unfold grantedOf
        have h2 : (!decide (n ∈ g) && b) = false := by
          simpa using h
        simp [List.filter_cons, h2]
      rw [hgr]

lemma mem_grantBadgeByNamePure (L : Ledger) (uid badge : String)
    (r : String × String) :
    r ∈ grantBadgeByNamePure L uid badge ↔ r ∈ L ∨ r = (uid, badge) := by
  unfold grantBadgeByNamePure
  by_cases h : (uid, badge) ∈ L
  · rw [if_pos h]
    constructor
    · exact Or.inl
    · rintro (hr | rfl)
      · exact hr
      · exact h
  · rw [if_neg h]
    simp

lemma mem_applyGrants (uid : String) (names : List String) (L : Ledger)
    (r : String × String) :
    r ∈ applyGrants L uid names ↔ r ∈ L ∨ (r.1 = uid ∧ r.2 ∈ names) := by
  induction names generalizing L with
  | nil => simp [applyGrants]
  | cons n ns ih =>
    have hstep : applyGrants L uid (n :: ns)
        = applyGrants (grantBadgeByNamePure L uid n) uid ns := by
      unfold applyGrants
      rw [List.foldl_cons]
    rw [hstep, ih, mem_grantBadgeByNamePure]
    rcases r with ⟨a, c⟩
    simp only [List.mem_cons, Prod.mk.injEq]
    constructor
    · rintro ((hr | ⟨rfl, rfl⟩) | ⟨rfl, hc⟩)
      · exact Or.inl hr
      · exact Or.inr ⟨rfl, Or.inl rfl⟩
      · exact Or.inr ⟨rfl, Or.inr hc⟩
    · rintro (hr | ⟨rfl, (rfl | hc)⟩)
      · exact Or.inl (Or.inl hr)
      · exact Or.inl (Or.inr ⟨rfl, rfl⟩)
      · exact Or.inr ⟨rfl, hc⟩

lemma mem_getUserBadgesPure (L : Ledger) (uid b : String) :
    b ∈ getUserBadgesPure L uid ↔ (uid, b) ∈ L := by
  unfold getUserBadgesPure
  simp only [List.mem_map, List.mem_filter, beq_iff_eq]
  constructor
  · rintro ⟨⟨u, b2⟩, ⟨hm, hu⟩, hb⟩
    simp only at hu hb
    rw [← hu, ← hb]
    exact hm
  · intro h
    exact ⟨(uid, b), ⟨h, rfl⟩, rfl⟩

lemma mem_loadedSet (L : Ledger) (uid b : String) :
    b ∈ loadedSet L uid ↔ (uid, b) ∈ L := by
  unfold loadedSet
  rw [List.mem_toFinset, mem_getUserBadgesPure]

/-- With pure (never-failing) storage, the journal pass succeeds and its
grant invocations are the filtered rule table. -/
lemma journalWorker_pure (es : List JournalEntry) (uid : String) (L : Ledger) :
    BadgeWorkerService.journalBadgeWorker (journalQueriesOf es) badgeOpsPure
        uid L =
      ({ ledger := applyGrants L uid
            (grantedOf (loadedSet L uid) (journalRulesEval es uid)),
         calls := grantedOf (loadedSet L uid) (journalRulesEval es uid) },
       Except.ok ()) := by
  have hlist : [(BadgeWorkerService.badges_JOURNAL_FIRST_ENTRY,
        (journalQueriesOf es).hasFirstEntry uid),
      (BadgeWorkerService.badges_JOURNAL_3_STREAK,
        (journalQueriesOf es).hasConsecutiveDays uid 3),
      (BadgeWorkerService.badges_JOURNAL_7_STREAK,
        (journalQueriesOf es).hasConsecutiveDays uid 7),
      (BadgeWorkerService.badges_JOURNAL_10_ENTRIES,
        (journalQueriesOf es).hasReachedEntryCount uid 10),
      (BadgeWorkerService.badges_JOURNAL_20_ENTRIES,
        (journalQueriesOf es).hasReachedEntryCount uid 20),
      (BadgeWorkerService.badges_JOURNAL_30_ENTRIES,
        (journalQueriesOf es).hasReachedEntryCount uid 30)]
      = (journalRulesEval es uid).map
          (fun r : String × Bool => (r.1, Except.ok r.2)) := rfl
  show runRules badgeOpsPure uid (getUserBadgesPure L uid).toFinset _
      { ledger := L, calls := [] } = _
  rw [hlist, runRules_pure]
  rfl

/-- Pure-storage characterization of the flip-and-feel pass. -/
lemma flipWorker_pure (fs : List FlipFeel) (rs : List FlipFeelResponse)
    (qs : List FlipFeelQuestion) (uid : String) (L : Ledger) :
    BadgeWorkerService.flipAndFeelBadgeWorker (flipFeelQueriesOf fs rs qs)
        badgeOpsPure uid L =
      ({ ledger := applyGrants L uid
            (grantedOf (loadedSet L uid) (flipRulesEval fs rs qs uid)),
         calls := grantedOf (loadedSet L uid) (flipRulesEval fs rs qs uid) },
       Except.ok ()) := by
  have hlist : [(BadgeWorkerService.badges_FLIP_AND_FEEL_FIRST,
        (flipFeelQueriesOf fs rs qs).hasFirstEntry uid),
      (BadgeWorkerService.badges_FLIP_AND_FEEL_ALL_CATEGORIES,
        (flipFeelQueriesOf fs rs qs).hasCompletedAllCategories uid
          BadgeWorkerService.validCategories),
      (BadgeWorkerService.badges_FLIP_AND_FEEL_7_STREAK,
        (flipFeelQueriesOf fs rs qs).hasConsecutiveDays uid 7)]
      = (flipRulesEval fs rs qs uid).map
          (fun r : String × Bool => (r.1, Except.ok r.2)) := rfl
  show runRules badgeOpsPure uid (getUserBadgesPure L uid).toFinset _
      { ledger := L, calls := [] } = _
  rw [hlist, runRules_pure]
  rfl

/-- Pure-storage characterization of the mood pass. -/
lemma moodWorker_pure (ms : List MoodCheckIn) (uid : String) (L : Ledger) :
    BadgeWorkerService.moodBadgeWorker (moodQueriesOf ms) badgeOpsPure uid L =
      ({ ledger := applyGrants L uid
            (grantedOf (loadedSet L uid) (moodRulesEval ms uid)),
         calls := grantedOf (loadedSet L uid) (moodRulesEval ms uid) },
       Except.ok ()) := by
  have hlist : [(BadgeWorkerService.badges_MOOD_CHECKIN_7_STREAK,
        (moodQueriesOf ms).hasConsecutiveDays uid 7),
      (BadgeWorkerService.badges_MOOD_CHECKIN_14_STREAK,
        (moodQueriesOf ms).hasConsecutiveDays uid 14)]
      = (moodRulesEval ms uid).map
          (fun r : String × Bool => (r.1, Except.ok r.2)) := rfl
  show runRules badgeOpsPure uid (getUserBadgesPure L uid).toFinset _
      { ledger := L, calls := [] } = _
  rw [hlist, runRules_pure]
  rfl

/-- Pure-storage characterization of the gratitude pass. -/
lemma gratitudeWorker_pure (gs : List GratitudeEntry) (uid : String)
    (L : Ledger) :
    BadgeWorkerService.gratitudeBadgeWorker (gratitudeQueriesOf gs)
        badgeOpsPure uid L =
      ({ ledger := applyGrants L uid
            (grantedOf (loadedSet L uid) (gratitudeRulesEval gs uid)),
         calls := grantedOf (loadedSet L uid) (gratitudeRulesEval gs uid) },
       Except.ok ()) := by
  have hlist : [(BadgeWorkerService.badges_GRATITUDE_FIRST_ENTRY,
        (gratitudeQueriesOf gs).hasFirstEntry uid),
      (BadgeWorkerService.badges_GRATITUDE_10_ENTRIES,
        (gratitudeQueriesOf gs).hasReachedEntryCount uid 10),
      (BadgeWorkerService.badges_GRATITUDE_25_ENTRIES,
        (gratitudeQueriesOf gs).hasReachedEntryCount uid 25),
      (BadgeWorkerService.badges_GRATITUDE_50_ENTRIES,
        (gratitudeQueriesOf gs).hasReachedEntryCount uid 50),
      (BadgeWorkerService.badges_GRATITUDE_100_ENTRIES,
        (gratitudeQueriesOf gs).hasReachedEntryCount uid 100),
      (BadgeWorkerService.badges_GRATITUDE_3_STREAK,
        (gratitudeQueriesOf gs).hasConsecutiveDays uid 3),
      (BadgeWorkerService.badges_GRATITUDE_7_STREAK,
        (gratitudeQueriesOf gs).hasConsecutiveDays uid 7)]
      = (gratitudeRulesEval gs uid).map
          (fun r : String × Bool => (r.1, Except.ok r.2)) := rfl
  show runRules badgeOpsPure uid (getUserBadgesPure L uid).toFinset _
      { ledger := L, calls := [] } = _
  rw [hlist, runRules_pure]
  rfl

/-- Membership in a pure pass's grant-call list: the badge must head a rule
whose name is outside the loaded set and whose predicate held. -/
lemma mem_grantedOf (g : Finset String) (rules : List (String × Bool))
    (b : String) :
    b ∈ grantedOf g rules ↔ b ∉ g ∧ (b, true) ∈ rules := by
  unfold grantedOf
  simp only [List.mem_map, List.mem_filter]
  constructor
  · rintro ⟨⟨n, p⟩, ⟨hmem, hcond⟩, rfl⟩
    have hcond2 : n ∉ g ∧ p = true := by
      simpa using hcond
    rcases hcond2 with ⟨hng, rfl⟩
    exact ⟨hng, hmem⟩
  · rintro ⟨hng, hmem⟩
    refine ⟨(b, true), ⟨hmem, ?_⟩, rfl⟩
    simp [hng]

/-! ## Claims -/

/-- Claim C2: for every user and threshold, `hasConsecutiveDays` is true
exactly when some run of day-adjacent distinct UTC dates of the user's
qualifying records (same-day records counting once) has length at least `k`;
the rank-based grouping (date minus ascending rank, group, max group size)
is equivalent to the longest-run definition in every domain, and on dates
`{D, D+1, D+3}` the longest run is 2 (so threshold 2 holds and 3 fails). -/
theorem hasConsecutiveDays_rank_grouping_correct :
    (∀ (es : List JournalEntry) (uid : String) (k : Nat),
      JournalEntryRepository.hasConsecutiveDays es uid k = true ↔
        Streak.hasRun (JournalEntryRepository.entryDates es uid) k)
  ∧ (∀ (es : List GratitudeEntry) (uid : String) (k : Nat),
      GratitudeEntryRepository.hasConsecutiveDays es uid k = true ↔
        Streak.hasRun (GratitudeEntryRepository.entryDates es uid) k)
  ∧ (∀ (ms : List MoodCheckIn) (uid : String) (k : Nat),
      MoodCheckInRepository.hasConsecutiveDays ms uid k = true ↔
        Streak.hasRun (MoodCheckInRepository.checkinDates ms uid) k)
  ∧ (∀ (fs : List FlipFeel) (uid : String) (k : Nat),
      FlipFeelRepository.hasConsecutiveDays fs uid k = true ↔
        Streak.hasRun (FlipFeelRepository.sessionDates fs uid) k)
  ∧ (∀ D : Int,
      Streak.existsStreakGe ({D, D + 1, D + 3} : Finset Int) 2 = true ∧
      Streak.existsStreakGe ({D, D + 1, D + 3} : Finset Int) 3 = false) := by
  refine ⟨fun es uid k => Streak.existsStreakGe_iff_hasRun _ k,
    fun es uid k => Streak.existsStreakGe_iff_hasRun _ k,
    fun ms uid k => Streak.existsStreakGe_iff_hasRun _ k,
    fun fs uid k => Streak.existsStreakGe_iff_hasRun _ k,
    fun D => ⟨?_, ?_⟩⟩
  · rw [Streak.existsStreakGe_iff_hasRun]
    refine ⟨D, by simp, fun j hj => ?_⟩
    interval_cases j
    · simp
    · simp
  · have hno : ¬ Streak.hasRun ({D, D + 1, D + 3} : Finset Int) 3 := by
      rintro ⟨d, hd, hrun⟩
      have h1 := hrun 1 (by omega)
      have h2 := hrun 2 (by omega)
      simp only [Finset.mem_insert, Finset.mem_singleton] at hd h1 h2
      push_cast at h1 h2
      rcases hd with rfl | rfl | rfl <;> omega
    cases hres : Streak.existsStreakGe ({D, D + 1, D + 3} : Finset Int) 3
    · rfl
    · exact absurd ((Streak.existsStreakGe_iff_hasRun _ _).mp hres) hno

/-- Claim C6: `hasReachedEntryCount` (journal and gratitude) is true exactly
when the user has at least `n` qualifying (non-soft-deleted) records, and a
user with exactly `n` such records passes threshold `n` but fails `n + 1`. -/
theorem hasReachedEntryCount_threshold_boundary :
    (∀ (es : List JournalEntry) (uid : String) (n : Nat),
      (JournalEntryRepository.hasReachedEntryCount es uid n = true ↔
        n ≤ (JournalEntryRepository.qualEntries es uid).length)
      ∧ ((JournalEntryRepository.qualEntries es uid).length = n →
          JournalEntryRepository.hasReachedEntryCount es uid n = true ∧
          JournalEntryRepository.hasReachedEntryCount es uid (n + 1) = false))
  ∧ (∀ (es : List GratitudeEntry) (uid : String) (n : Nat),
      (GratitudeEntryRepository.hasReachedEntryCount es uid n = true ↔
        n ≤ (GratitudeEntryRepository.qualEntries es uid).length)
      ∧ ((GratitudeEntryRepository.qualEntries es uid).length = n →
          GratitudeEntryRepository.hasReachedEntryCount es uid n = true ∧
          GratitudeEntryRepository.hasReachedEntryCount es uid (n + 1) = false)) := by
  constructor
  · intro es uid n
    refine ⟨by simp [JournalEntryRepository.hasReachedEntryCount], fun h => ?_⟩
    constructor
    · simp [JournalEntryRepository.hasReachedEntryCount, h]
    · simp [JournalEntryRepository.hasReachedEntryCount, h]
  · intro es uid n
    refine ⟨by simp [GratitudeEntryRepository.hasReachedEntryCount], fun h => ?_⟩
    constructor
    · simp [GratitudeEntryRepository.hasReachedEntryCount, h]
    · simp [GratitudeEntryRepository.hasReachedEntryCount, h]

/-- Witness for C6: one non-deleted journal entry passes threshold 1 and
fails threshold 2. -/
theorem hasReachedEntryCount_threshold_boundary_witness :
    JournalEntryRepository.hasReachedEntryCount
      [{ journal_id := "j", user_id := "u", title_encrypted := "t",
         content_encrypted := "c", is_deleted := false, created_at := 0 }]
      "u" 1 = true ∧
    JournalEntryRepository.hasReachedEntryCount
      [{ journal_id := "j", user_id := "u", title_encrypted := "t",
         content_encrypted := "c", is_deleted := false, created_at := 0 }]
      "u" 2 = false :=
  (hasReachedEntryCount_threshold_boundary.1
    [{ journal_id := "j", user_id := "u", title_encrypted := "t",
       content_encrypted := "c", is_deleted := false, created_at := 0 }]
    "u" 1).2 (by rfl)

lemma journalQual_via_nondeleted (es : List JournalEntry) (uid : String) :
    JournalEntryRepository.qualEntries es uid
      = (es.filter (fun e => !e.is_deleted)).filter
          (fun e => e.user_id == uid) := by
  unfold JournalEntryRepository.qualEntries
  rw [List.filter_filter]

lemma gratitudeQual_via_nondeleted (es : List GratitudeEntry) (uid : String) :
    GratitudeEntryRepository.qualEntries es uid
      = (es.filter (fun e => !e.is_deleted)).filter
          (fun e => e.user_id == uid) := by
  unfold GratitudeEntryRepository.qualEntries
  rw [List.filter_filter]

/-- Claim C7: soft-deleted records never count — two journal (or gratitude)
tables whose non-deleted rows coincide give identical answers from
`hasFirstEntry`, `hasReachedEntryCount` and `hasConsecutiveDays`. -/
theorem soft_deleted_records_never_count :
    (∀ es1 es2 : List JournalEntry,
      es1.filter (fun e => !e.is_deleted) = es2.filter (fun e => !e.is_deleted) →
      ∀ uid : String,
        JournalEntryRepository.hasFirstEntry es1 uid
          = JournalEntryRepository.hasFirstEntry es2 uid
        ∧ (∀ n, JournalEntryRepository.hasReachedEntryCount es1 uid n
            = JournalEntryRepository.hasReachedEntryCount es2 uid n)
        ∧ (∀ k, JournalEntryRepository.hasConsecutiveDays es1 uid k
            = JournalEntryRepository.hasConsecutiveDays es2 uid k))
  ∧ (∀ es1 es2 : List GratitudeEntry,
      es1.filter (fun e => !e.is_deleted) = es2.filter (fun e => !e.is_deleted) →
      ∀ uid : String,
        GratitudeEntryRepository.hasFirstEntry es1 uid
          = GratitudeEntryRepository.hasFirstEntry es2 uid
        ∧ (∀ n, GratitudeEntryRepository.hasReachedEntryCount es1 uid n
            = GratitudeEntryRepository.hasReachedEntryCount es2 uid n)
        ∧ (∀ k, GratitudeEntryRepository.hasConsecutiveDays es1 uid k
            = GratitudeEntryRepository.hasConsecutiveDays es2 uid k)) := by
  constructor
  · intro es1 es2 hnd uid
    have hq : JournalEntryRepository.qualEntries es1 uid
        = JournalEntryRepository.qualEntries es2 uid := by
      rw [journalQual_via_nondeleted, journalQual_via_nondeleted, hnd]
    refine ⟨?_, fun n => ?_, fun k => ?_⟩
    · simp [JournalEntryRepository.hasFirstEntry, hq]
    · simp [JournalEntryRepository.hasReachedEntryCount, hq]
    · simp [JournalEntryRepository.hasConsecutiveDays,
        JournalEntryRepository.entryDates, hq]
  · intro es1 es2 hnd uid
    have hq : GratitudeEntryRepository.qualEntries es1 uid
        = GratitudeEntryRepository.qualEntries es2 uid := by
      rw [gratitudeQual_via_nondeleted, gratitudeQual_via_nondeleted, hnd]
    refine ⟨?_, fun n => ?_, fun k => ?_⟩
    · simp [GratitudeEntryRepository.hasFirstEntry, hq]
    · simp [GratitudeEntryRepository.hasReachedEntryCount, hq]
    · simp [GratitudeEntryRepository.hasConsecutiveDays,
        GratitudeEntryRepository.entryDates, hq]

/-- Witness for C7: a journal table holding one soft-deleted entry answers
exactly like the empty table. -/
theorem soft_deleted_records_never_count_witness :
    JournalEntryRepository.hasFirstEntry
      [{ journal_id := "j", user_id := "u", title_encrypted := "t",
         content_encrypted := "c", is_deleted := true, created_at := 0 }] "u"
      = JournalEntryRepository.hasFirstEntry [] "u" ∧
    JournalEntryRepository.hasReachedEntryCount
      [{ journal_id := "j", user_id := "u", title_encrypted := "t",
         content_encrypted := "c", is_deleted := true, created_at := 0 }] "u" 1
      = JournalEntryRepository.hasReachedEntryCount [] "u" 1 := by
  have h := soft_deleted_records_never_count.1
    [{ journal_id := "j", user_id := "u", title_encrypted := "t",
       content_encrypted := "c", is_deleted := true, created_at := 0 }]
    [] (by rfl) "u"
  exact ⟨h.1, h.2.1 1⟩

/-- Claim C10: a decoded payload whose `userId` is the empty string is
rejected with 400 through the same falsiness branch as a missing `userId`
— no badge worker is invoked — whatever the `eventType`. -/
theorem empty_userId_rejected_like_missing :
    ∀ et : Option String,
      BadgeWorkerController.handleBadgeAwarding { eventType := et, userId := some "" }
        = { status := 400, worker := none } ∧
      BadgeWorkerController.handleBadgeAwarding { eventType := et, userId := some "" }
        = BadgeWorkerController.handleBadgeAwarding { eventType := et, userId := none } := by
  intro et
  constructor <;>
    simp [BadgeWorkerController.handleBadgeAwarding, BadgeWorkerController.isFalsyStr]

/-- Claim C9: a decoded payload with a missing `eventType`, a missing
`userId`, or an `eventType` outside the four known values produces HTTP 400
and no badge-worker invocation. -/
theorem unknown_or_missing_payload_rejected :
    ∀ p : BadgeWorkerController.ActivityPayload,
      (p.eventType = none ∨ p.userId = none ∨
        (∀ s : String, p.eventType = some s →
          s ∉ BadgeWorkerController.knownEventTypes)) →
      BadgeWorkerController.handleBadgeAwarding p
        = { status := 400, worker := none } := by
  rintro ⟨et, uidf⟩ h
  rcases h with rfl | rfl | hunk
  · simp [BadgeWorkerController.handleBadgeAwarding,
      BadgeWorkerController.isFalsyStr]
  · simp [BadgeWorkerController.handleBadgeAwarding,
      BadgeWorkerController.isFalsyStr]
  · rcases et with _ | s
    · simp [BadgeWorkerController.handleBadgeAwarding,
        BadgeWorkerController.isFalsyStr]
    · have hs := hunk s rfl
      simp only [BadgeWorkerController.knownEventTypes, List.mem_cons,
        List.mem_singleton, not_or] at hs
      obtain ⟨h1, h2, h3, h4, -⟩ := hs
      unfold BadgeWorkerController.handleBadgeAwarding
      by_cases hf : BadgeWorkerController.isFalsyStr (some s)
          || BadgeWorkerController.isFalsyStr uidf
      · rw [if_pos hf]
      · rw [if_neg hf]
        simp only [Option.getD_some]
        rw [if_neg (by simp [h1]), if_neg (by simp [h2]),
          if_neg (by simp [h3]), if_neg (by simp [h4])]

/-- Witness for C9: the unknown event type string is answered with 400 and
no worker call. -/
theorem unknown_or_missing_payload_rejected_witness :
    BadgeWorkerController.handleBadgeAwarding
        { eventType := some "SOMETHING_ELSE", userId := some "u" }
      = { status := 400, worker := none } :=
  unknown_or_missing_payload_rejected
    { eventType := some "SOMETHING_ELSE", userId := some "u" }
    (Or.inr (Or.inr (fun s hs => by
      cases hs
      decide)))

/-- At most one grant record per `(user_id, badge_name)` pair. -/
def ledgerUnique (L : Ledger) : Prop :=
  ∀ u b : String, L.count (u, b) ≤ 1

lemma ledgerUnique_grant (L : Ledger) (u b : String) (h : ledgerUnique L) :
    ledgerUnique (grantBadgeByNamePure L u b) := by
  unfold grantBadgeByNamePure
  by_cases hmem : (u, b) ∈ L
  · rw [if_pos hmem]
    exact h
  · rw [if_neg hmem]
    intro u2 b2
    rw [List.count_append]
    by_cases he : ((u2, b2) : String × String) = (u, b)
    · have h0 : L.count (u2, b2) = 0 := by
        rw [List.count_eq_zero]
        rw [he]
        exact hmem
      have h1 : List.count ((u2, b2) : String × String) [(u, b)] = 1 := by
        rw [he]
        simp
      omega
    · have h1 : List.count ((u2, b2) : String × String) [(u, b)] = 0 := by
        rw [List.count_eq_zero]
        simp [he]
      have := h u2 b2
      omega

/-- Claim C3: granting is idempotent at the ledger — re-granting an
already-held badge changes nothing (no error, no duplicate, no side
effect), a double grant equals a single grant, and any sequence of grant
operations (covering duplicate or interleaved concurrent triggering)
preserves the at-most-one-record-per-pair invariant. -/
theorem grant_idempotent_no_duplicates :
    ∀ (L : Ledger) (u b : String),
      ((u, b) ∈ L → grantBadgeByNamePure L u b = L)
      ∧ grantBadgeByNamePure (grantBadgeByNamePure L u b) u b
          = grantBadgeByNamePure L u b
      ∧ (ledgerUnique L → ledgerUnique (grantBadgeByNamePure L u b))
      ∧ (∀ ops : List (String × String), ledgerUnique L →
          ledgerUnique (ops.foldl (fun M p => grantBadgeByNamePure M p.1 p.2) L)) := by
  intro L u b
  have hself : ∀ M : Ledger, (u, b) ∈ M → grantBadgeByNamePure M u b = M := by
    intro M hM
    unfold grantBadgeByNamePure
    rw [if_pos hM]
  refine ⟨hself L, ?_, ledgerUnique_grant L u b, ?_⟩
  · have hmem : (u, b) ∈ grantBadgeByNamePure L u b := by
      unfold grantBadgeByNamePure
      by_cases hM : (u, b) ∈ L
      · rw [if_pos hM]
        exact hM
      · rw [if_neg hM]
        simp
    exact hself _ hmem
  · intro ops
    induction ops generalizing L with
    | nil => exact fun h => h
    | cons p ps ih =>
      intro h
      exact ih _ (ledgerUnique_grant L p.1 p.2 h)

/-- Witness for C3: on the one-record ledger, re-granting the held badge is
the identity and uniqueness is preserved. -/
theorem grant_idempotent_no_duplicates_witness :
    grantBadgeByNamePure [( "u" , "b" )] "u" "b" = [( "u" , "b" )] ∧
    ledgerUnique (grantBadgeByNamePure [( "u" , "b" )] "u" "b") := by
  refine ⟨(grant_idempotent_no_duplicates [( "u" , "b" )] "u" "b").1 (by simp),
    (grant_idempotent_no_duplicates [( "u" , "b" )] "u" "b").2.2.1 ?_⟩
  intro u2 b2
  calc List.count ((u2, b2) : String × String) [( "u" , "b" )]
      ≤ [( "u" , "b" )].length := List.count_le_length _ _
    _ = 1 := rfl

/-- Claim C1: with the grant set loaded once at the start of a pass, each
pass's `grantBadgeByName` invocations are exactly the domain's rules whose
badge name is outside that set and whose predicate holds over the activity
history — never a badge already in the loaded set. -/
theorem pass_grants_exactly_new_qualifying :
    (∀ (es : List JournalEntry) (uid : String) (L : Ledger),
      (BadgeWorkerService.journalBadgeWorker (journalQueriesOf es)
          badgeOpsPure uid L).1.calls
        = grantedOf (loadedSet L uid) (journalRulesEval es uid)
      ∧ ∀ b ∈ loadedSet L uid,
          b ∉ (BadgeWorkerService.journalBadgeWorker (journalQueriesOf es)
            badgeOpsPure uid L).1.calls)
  ∧ (∀ (fs : List FlipFeel) (rs : List FlipFeelResponse)
        (qs : List FlipFeelQuestion) (uid : String) (L : Ledger),
      (BadgeWorkerService.flipAndFeelBadgeWorker (flipFeelQueriesOf fs rs qs)
          badgeOpsPure uid L).1.calls
        = grantedOf (loadedSet L uid) (flipRulesEval fs rs qs uid)
      ∧ ∀ b ∈ loadedSet L uid,
          b ∉ (BadgeWorkerService.flipAndFeelBadgeWorker
            (flipFeelQueriesOf fs rs qs) badgeOpsPure uid L).1.calls)
  ∧ (∀ (ms : List MoodCheckIn) (uid : String) (L : Ledger),
      (BadgeWorkerService.moodBadgeWorker (moodQueriesOf ms)
          badgeOpsPure uid L).1.calls
        = grantedOf (loadedSet L uid) (moodRulesEval ms uid)
      ∧ ∀ b ∈ loadedSet L uid,
          b ∉ (BadgeWorkerService.moodBadgeWorker (moodQueriesOf ms)
            badgeOpsPure uid L).1.calls)
  ∧ (∀ (gs : List GratitudeEntry) (uid : String) (L : Ledger),
      (BadgeWorkerService.gratitudeBadgeWorker (gratitudeQueriesOf gs)
          badgeOpsPure uid L).1.calls
        = grantedOf (loadedSet L uid) (gratitudeRulesEval gs uid)
      ∧ ∀ b ∈ loadedSet L uid,
          b ∉ (BadgeWorkerService.gratitudeBadgeWorker (gratitudeQueriesOf gs)
            badgeOpsPure uid L).1.calls) := by
  refine ⟨fun es uid L => ?_, fun fs rs qs uid L => ?_, fun ms uid L => ?_,
    fun gs uid L => ?_⟩
  · rw [journalWorker_pure]
    refine ⟨rfl, fun b hb hcall => ?_⟩
    exact ((mem_grantedOf _ _ b).mp hcall).1 hb
  · rw [flipWorker_pure]
    refine ⟨rfl, fun b hb hcall => ?_⟩
    exact ((mem_grantedOf _ _ b).mp hcall).1 hb
  · rw [moodWorker_pure]
    refine ⟨rfl, fun b hb hcall => ?_⟩
    exact ((mem_grantedOf _ _ b).mp hcall).1 hb
  · rw [gratitudeWorker_pure]
    refine ⟨rfl, fun b hb hcall => ?_⟩
    exact ((mem_grantedOf _ _ b).mp hcall).1 hb

/-- Witness for C1: a user already holding the journal first-entry badge and
owning one journal entry gets no repeat call for it, while the calls of the
pass equal the filtered rule table. -/
theorem pass_grants_exactly_new_qualifying_witness :
    (BadgeWorkerService.journalBadgeWorker
        (journalQueriesOf
          [{ journal_id := "j", user_id := "u", title_encrypted := "t",
             content_encrypted := "c", is_deleted := false, created_at := 0 }])
        badgeOpsPure "u" [( "u" , "New Beginnings" )]).1.calls
      = grantedOf (loadedSet [( "u" , "New Beginnings" )] "u")
          (journalRulesEval
            [{ journal_id := "j", user_id := "u", title_encrypted := "t",
               content_encrypted := "c", is_deleted := false, created_at := 0 }]
            "u") ∧
    "New Beginnings" ∉ (BadgeWorkerService.journalBadgeWorker
        (journalQueriesOf
          [{ journal_id := "j", user_id := "u", title_encrypted := "t",
             content_encrypted := "c", is_deleted := false, created_at := 0 }])
        badgeOpsPure "u" [( "u" , "New Beginnings" )]).1.calls := by
  have h := pass_grants_exactly_new_qualifying.1
    [{ journal_id := "j", user_id := "u", title_encrypted := "t",
       content_encrypted := "c", is_deleted := false, created_at := 0 }]
    "u" [( "u" , "New Beginnings" )]
  exact ⟨h.1, h.2 "New Beginnings" (by decide)⟩

lemma loadedSet_after_grants (L : Ledger) (uid : String) (names : List String)
    (b : String) :
    b ∈ loadedSet (applyGrants L uid names) uid ↔
      b ∈ loadedSet L uid ∨ b ∈ names := by
  rw [mem_loadedSet, mem_applyGrants, mem_loadedSet]
  simp

lemma grantedOf_nil_of_covered (rules : List (String × Bool))
    (g2 : Finset String)
    (h : ∀ nb : String × Bool, nb ∈ rules → nb.2 = true → nb.1 ∈ g2) :
    grantedOf g2 rules = [] := by
  unfold grantedOf
  have hfil : rules.filter (fun r => !(decide (r.1 ∈ g2)) && r.2) = [] := by
    rw [List.filter_eq_nil_iff]
    rintro ⟨n, p⟩ hmem
    by_cases hp : p = true
    · have := h (n, p) hmem hp
      simp [this, hp]
    · simp [Bool.eq_false_iff.mpr hp]
  rw [hfil]
  rfl

lemma second_pass_grantedOf_nil (rules : List (String × Bool)) (L : Ledger)
    (uid : String) :
    grantedOf
      (loadedSet (applyGrants L uid (grantedOf (loadedSet L uid) rules)) uid)
      rules = [] := by
  apply grantedOf_nil_of_covered
  rintro ⟨n, p⟩ hmem hp
  rw [loadedSet_after_grants]
  by_cases hg : n ∈ loadedSet L uid
  · exact Or.inl hg
  · refine Or.inr ((mem_grantedOf _ _ n).mpr ⟨hg, ?_⟩)
    rw [← hp]
    exact hmem

/-- Claim C4: with an unchanged activity history, re-running a pass grants
nothing: every badge granted by the first pass is in the grant set the
second pass loads, and the second pass makes no `grantBadgeByName` call. -/
theorem rerun_pass_grants_nothing :
    (∀ (es : List JournalEntry) (uid : String) (L : Ledger),
      (∀ b ∈ (BadgeWorkerService.journalBadgeWorker (journalQueriesOf es)
            badgeOpsPure uid L).1.calls,
        b ∈ loadedSet ((BadgeWorkerService.journalBadgeWorker
            (journalQueriesOf es) badgeOpsPure uid L).1.ledger) uid)
      ∧ (BadgeWorkerService.journalBadgeWorker (journalQueriesOf es)
          badgeOpsPure uid
          ((BadgeWorkerService.journalBadgeWorker (journalQueriesOf es)
            badgeOpsPure uid L).1.ledger)).1.calls = [])
  ∧ (∀ (fs : List FlipFeel) (rs : List FlipFeelResponse)
        (qs : List FlipFeelQuestion) (uid : String) (L : Ledger),
      (∀ b ∈ (BadgeWorkerService.flipAndFeelBadgeWorker
            (flipFeelQueriesOf fs rs qs) badgeOpsPure uid L).1.calls,
        b ∈ loadedSet ((BadgeWorkerService.flipAndFeelBadgeWorker
            (flipFeelQueriesOf fs rs qs) badgeOpsPure uid L).1.ledger) uid)
      ∧ (BadgeWorkerService.flipAndFeelBadgeWorker (flipFeelQueriesOf fs rs qs)
          badgeOpsPure uid
          ((BadgeWorkerService.flipAndFeelBadgeWorker
            (flipFeelQueriesOf fs rs qs) badgeOpsPure uid L).1.ledger)).1.calls
        = [])
  ∧ (∀ (ms : List MoodCheckIn) (uid : String) (L : Ledger),
      (∀ b ∈ (BadgeWorkerService.moodBadgeWorker (moodQueriesOf ms)
            badgeOpsPure uid L).1.calls,
        b ∈ loadedSet ((BadgeWorkerService.moodBadgeWorker (moodQueriesOf ms)
            badgeOpsPure uid L).1.ledger) uid)
      ∧ (BadgeWorkerService.moodBadgeWorker (moodQueriesOf ms) badgeOpsPure uid
          ((BadgeWorkerService.moodBadgeWorker (moodQueriesOf ms)
            badgeOpsPure uid L).1.ledger)).1.calls = [])
  ∧ (∀ (gs : List GratitudeEntry) (uid : String) (L : Ledger),
      (∀ b ∈ (BadgeWorkerService.gratitudeBadgeWorker (gratitudeQueriesOf gs)
            badgeOpsPure uid L).1.calls,
        b ∈ loadedSet ((BadgeWorkerService.gratitudeBadgeWorker
            (gratitudeQueriesOf gs) badgeOpsPure uid L).1.ledger) uid)
      ∧ (BadgeWorkerService.gratitudeBadgeWorker (gratitudeQueriesOf gs)
          badgeOpsPure uid
          ((BadgeWorkerService.gratitudeBadgeWorker (gratitudeQueriesOf gs)
            badgeOpsPure uid L).1.ledger)).1.calls = []) := by
  refine ⟨fun es uid L => ?_, fun fs rs qs uid L => ?_, fun ms uid L => ?_,
    fun gs uid L => ?_⟩
  · rw [journalWorker_pure, journalWorker_pure]
    exact ⟨fun b hb => (loadedSet_after_grants L uid _ b).mpr (Or.inr hb),
      second_pass_grantedOf_nil _ L uid⟩
  · rw [flipWorker_pure, flipWorker_pure]
    exact ⟨fun b hb => (loadedSet_after_grants L uid _ b).mpr (Or.inr hb),
      second_pass_grantedOf_nil _ L uid⟩
  · rw [moodWorker_pure, moodWorker_pure]
    exact ⟨fun b hb => (loadedSet_after_grants L uid _ b).mpr (Or.inr hb),
      second_pass_grantedOf_nil _ L uid⟩
  · rw [gratitudeWorker_pure, gratitudeWorker_pure]
    exact ⟨fun b hb => (loadedSet_after_grants L uid _ b).mpr (Or.inr hb),
      second_pass_grantedOf_nil _ L uid⟩

/-- Witness for C4: one journal entry, empty ledger — the first pass grants
the first-entry badge, which the second pass's loaded set contains, and the
second pass makes no call. -/
theorem rerun_pass_grants_nothing_witness :
    "New Beginnings" ∈ loadedSet ((BadgeWorkerService.journalBadgeWorker
        (journalQueriesOf
          [{ journal_id := "j", user_id := "u", title_encrypted := "t",
             content_encrypted := "c", is_deleted := false, created_at := 0 }])
        badgeOpsPure "u" []).1.ledger) "u" ∧
    (BadgeWorkerService.journalBadgeWorker
        (journalQueriesOf
          [{ journal_id := "j", user_id := "u", title_encrypted := "t",
             content_encrypted := "c", is_deleted := false, created_at := 0 }])
        badgeOpsPure "u"
        ((BadgeWorkerService.journalBadgeWorker
          (journalQueriesOf
            [{ journal_id := "j", user_id := "u", title_encrypted := "t",
               content_encrypted := "c", is_deleted := false, created_at := 0 }])
          badgeOpsPure "u" []).1.ledger)).1.calls = [] := by
  have h := rerun_pass_grants_nothing.1
    [{ journal_id := "j", user_id := "u", title_encrypted := "t",
       content_encrypted := "c", is_deleted := false, created_at := 0 }]
    "u" []
  exact ⟨h.1 "New Beginnings" (by decide), h.2⟩

lemma runRules_nil (ops : BadgeOps) (uid : String) (g : Finset String)
    (st : PassState) : runRules ops uid g [] st = (st, Except.ok ()) := rfl

lemma runRules_cons (ops : BadgeOps) (uid : String) (g : Finset String)
    (r : String × Except StorageErr Bool)
    (ls : List (String × Except StorageErr Bool)) (st : PassState) :
    runRules ops uid g (r :: ls) st
      = (match ruleStep ops uid g r.1 r.2 st with
         | (st2, Except.ok _) => runRules ops uid g ls st2
         | (st2, Except.error e2) => (st2, Except.error e2)) := rfl

lemma runRules_stops_at_query_error (ops : BadgeOps) (uid : String)
    (g : Finset String) (pre : List (String × Except StorageErr Bool))
    (n : String) (e : StorageErr)
    (post : List (String × Except StorageErr Bool)) (st : PassState)
    (hn : n ∉ g) (hok : (runRules ops uid g pre st).2 = Except.ok ()) :
    runRules ops uid g (pre ++ (n, Except.error e) :: post) st
      = ((runRules ops uid g pre st).1, Except.error e) := by
  revert hok
  induction pre generalizing st with
  | nil =>
    intro _
    rw [List.nil_append, runRules_cons]
    unfold ruleStep
    rw [if_neg hn]
    rfl
  | cons r pre ih =>
    intro hok
    rw [List.cons_append, runRules_cons, runRules_cons]
    rw [runRules_cons] at hok
    rcases hstep : ruleStep ops uid g r.1 r.2 st with ⟨st2, ex⟩
    rw [hstep] at hok
    cases ex with
    | ok v => exact ih st2 hok
    | error e2 => exact Except.noConfusion hok

lemma runRules_stops_at_grant_error (ops : BadgeOps) (uid : String)
    (g : Finset String) (pre : List (String × Except StorageErr Bool))
    (n : String) (e : StorageErr)
    (post : List (String × Except StorageErr Bool)) (st : PassState)
    (hn : n ∉ g) (hok : (runRules ops uid g pre st).2 = Except.ok ())
    (hgr : ops.grantBadgeByName (runRules ops uid g pre st).1.ledger uid n
      = Except.error e) :
    runRules ops uid g (pre ++ (n, Except.ok true) :: post) st
      = ({ ledger := (runRules ops uid g pre st).1.ledger,
           calls := (runRules ops uid g pre st).1.calls ++ [n] },
         Except.error e) := by
  revert hok hgr
  induction pre generalizing st with
  | nil =>
    intro _ hgr
    rw [runRules_nil] at hgr
    rw [List.nil_append, runRules_cons]
    unfold ruleStep
    rw [if_neg hn]
    show (match (match ops.grantBadgeByName st.ledger uid n with
      | Except.error e2 =>
          ({ st with calls := st.calls ++ [n] }, Except.error e2)
      | Except.ok L2 =>
          ({ ledger := L2, calls := st.calls ++ [n] }, Except.ok ())) with
      | (st2, Except.ok _) => runRules ops uid g post st2
      | (st2, Except.error e2) => (st2, Except.error e2)) = _
    rw [hgr]
    rfl
  | cons r pre ih =>
    intro hok hgr
    rw [List.cons_append, runRules_cons, runRules_cons]
    rw [runRules_cons] at hok hgr
    rcases hstep : ruleStep ops uid g r.1 r.2 st with ⟨st2, ex⟩
    rw [hstep] at hok hgr
    cases ex with
    | ok v => exact ih st2 hok hgr
    | error e2 => exact Except.noConfusion hok

/-- Claim C5: a failing Activity History Store query aborts the pass at that
rule — the error propagates, grants already performed remain (ledger and
call trace are exactly those of the preceding rules, no rollback), and the
remaining rules are not evaluated; a failing ledger grant behaves the same
after recording the failed invocation; and a failing grant-set load aborts
each of the four workers before any rule runs. -/
theorem storage_failure_aborts_pass :
    (∀ (ops : BadgeOps) (uid : String) (g : Finset String)
        (pre : List (String × Except StorageErr Bool)) (n : String)
        (e : StorageErr) (post : List (String × Except StorageErr Bool))
        (st : PassState),
      n ∉ g → (runRules ops uid g pre st).2 = Except.ok () →
      runRules ops uid g (pre ++ (n, Except.error e) :: post) st
        = ((runRules ops uid g pre st).1, Except.error e))
  ∧ (∀ (ops : BadgeOps) (uid : String) (g : Finset String)
        (pre : List (String × Except StorageErr Bool)) (n : String)
        (e : StorageErr) (post : List (String × Except StorageErr Bool))
        (st : PassState),
      n ∉ g → (runRules ops uid g pre st).2 = Except.ok () →
      ops.grantBadgeByName (runRules ops uid g pre st).1.ledger uid n
        = Except.error e →
      runRules ops uid g (pre ++ (n, Except.ok true) :: post) st
        = ({ ledger := (runRules ops uid g pre st).1.ledger,
             calls := (runRules ops uid g pre st).1.calls ++ [n] },
           Except.error e))
  ∧ (∀ (jq : JournalQueries) (ops : BadgeOps) (uid : String) (L : Ledger)
        (e : StorageErr),
      ops.getUserBadges L uid = Except.error e →
      BadgeWorkerService.journalBadgeWorker jq ops uid L
        = ({ ledger := L, calls := [] }, Except.error e))
  ∧ (∀ (fq : FlipFeelQueries) (ops : BadgeOps) (uid : String) (L : Ledger)
        (e : StorageErr),
      ops.getUserBadges L uid = Except.error e →
      BadgeWorkerService.flipAndFeelBadgeWorker fq ops uid L
        = ({ ledger := L, calls := [] }, Except.error e))
  ∧ (∀ (mq : MoodQueries) (ops : BadgeOps) (uid : String) (L : Ledger)
        (e : StorageErr),
      ops.getUserBadges L uid = Except.error e →
      BadgeWorkerService.moodBadgeWorker mq ops uid L
        = ({ ledger := L, calls := [] }, Except.error e))
  ∧ (∀ (gq : GratitudeQueries) (ops : BadgeOps) (uid : String) (L : Ledger)
        (e : StorageErr),
      ops.getUserBadges L uid = Except.error e →
      BadgeWorkerService.gratitudeBadgeWorker gq ops uid L
        = ({ ledger := L, calls := [] }, Except.error e)) := by
  refine ⟨runRules_stops_at_query_error, runRules_stops_at_grant_error,
    fun jq ops uid L e h => ?_, fun fq ops uid L e h => ?_,
    fun mq ops uid L e h => ?_, fun gq ops uid L e h => ?_⟩
  · unfold BadgeWorkerService.journalBadgeWorker
    rw [h]
  · unfold BadgeWorkerService.flipAndFeelBadgeWorker
    rw [h]
  · unfold BadgeWorkerService.moodBadgeWorker
    rw [h]
  · unfold BadgeWorkerService.gratitudeBadgeWorker
    rw [h]

/-- Ledger stub whose grant insert always fails. -/
def opsGrantFailing : BadgeOps where
  getUserBadges L uid := Except.ok (getUserBadgesPure L uid)
  grantBadgeByName _L _uid _b := Except.error "grant down"

/-- Ledger stub whose grant-set load always fails. -/
def opsLoadFailing : BadgeOps where
  getUserBadges _L _uid := Except.error "load down"
  grantBadgeByName L uid b := Except.ok (grantBadgeByNamePure L uid b)

/-- Witness for C5: concrete failing query, failing grant and failing load
each abort the pass with the error propagated and prior state kept. -/
theorem storage_failure_aborts_pass_witness :
    runRules badgeOpsPure "u" ∅
        ([] ++ ( "Mindful Momentum" , Except.error "query down") :: [])
        { ledger := [], calls := [] }
      = ({ ledger := [], calls := [] }, Except.error "query down") ∧
    runRules opsGrantFailing "u" ∅
        ([] ++ ( "Mindful Momentum" , Except.ok true) :: [])
        { ledger := [], calls := [] }
      = ({ ledger := [], calls := [ "Mindful Momentum" ] },
         Except.error "grant down") ∧
    BadgeWorkerService.journalBadgeWorker (journalQueriesOf []) opsLoadFailing
        "u" [] = ({ ledger := [], calls := [] }, Except.error "load down") ∧
    BadgeWorkerService.flipAndFeelBadgeWorker (flipFeelQueriesOf [] [] [])
        opsLoadFailing "u" []
      = ({ ledger := [], calls := [] }, Except.error "load down") ∧
    BadgeWorkerService.moodBadgeWorker (moodQueriesOf []) opsLoadFailing
        "u" [] = ({ ledger := [], calls := [] }, Except.error "load down") ∧
    BadgeWorkerService.gratitudeBadgeWorker (gratitudeQueriesOf [])
        opsLoadFailing "u" []
      = ({ ledger := [], calls := [] }, Except.error "load down") := by
  refine ⟨?_, ?_, ?_, ?_, ?_, ?_⟩
  · exact storage_failure_aborts_pass.1 badgeOpsPure "u" ∅ []
      "Mindful Momentum" "query down" [] { ledger := [], calls := [] }
      (Finset.not_mem_empty _) rfl
  · exact storage_failure_aborts_pass.2.1 opsGrantFailing "u" ∅ []
      "Mindful Momentum" "grant down" [] { ledger := [], calls := [] }
      (Finset.not_mem_empty _) rfl rfl
  · exact storage_failure_aborts_pass.2.2.1 (journalQueriesOf [])
      opsLoadFailing "u" [] "load down" rfl
  · exact storage_failure_aborts_pass.2.2.2.1 (flipFeelQueriesOf [] [] [])
      opsLoadFailing "u" [] "load down" rfl
  · exact storage_failure_aborts_pass.2.2.2.2.1 (moodQueriesOf [])
      opsLoadFailing "u" [] "load down" rfl
  · exact storage_failure_aborts_pass.2.2.2.2.2 (gratitudeQueriesOf [])
      opsLoadFailing "u" [] "load down" rfl

lemma mem_answeredCategories (fs : List FlipFeel) (rs : List FlipFeelResponse)
    (qs : List FlipFeelQuestion) (uid : String) (valid : List String)
    (c : String) :
    c ∈ FlipFeelRepository.answeredCategories fs rs qs uid valid ↔
      (c ∈ valid ∧ ∃ f ∈ fs, f.user_id = uid ∧ f.finished_at ≠ none ∧
        ∃ r ∈ rs, r.flip_feel_id = f.flip_feel_id ∧
        ∃ q ∈ qs, q.question_id = r.question_id ∧ q.category = c) := by
  unfold FlipFeelRepository.answeredCategories
    FlipFeelRepository.completedSessions
  simp only [List.mem_toFinset, List.mem_filter, List.mem_flatMap,
    List.mem_map, Bool.and_eq_true, beq_iff_eq,
    Option.isSome_iff_ne_none, List.elem_iff]
  constructor
  · rintro ⟨⟨r, ⟨f, ⟨hf, hfu, hff⟩, hr, hrf⟩, q, ⟨hq, hqr⟩, hqc⟩, hc⟩
    exact ⟨hc, f, hf, hfu, hff, r, hr, hrf, q, hq, hqr, hqc⟩
  · rintro ⟨hc, f, hf, hfu, hff, r, hr, hrf, q, hq, hqr, hqc⟩
    exact ⟨⟨r, ⟨f, ⟨hf, hfu, hff⟩, hr, hrf⟩, q, ⟨hq, hqr⟩, hqc⟩, hc⟩

lemma hasCompletedAllCategories_skip_unfinished (fid u : String)
    (st : Option Int) (fs : List FlipFeel) (rs : List FlipFeelResponse)
    (qs : List FlipFeelQuestion) (uid : String) (valid : List String) :
    FlipFeelRepository.hasCompletedAllCategories
        ({ flip_feel_id := fid, user_id := u, started_at := st,
           finished_at := none } :: fs) rs qs uid valid
      = FlipFeelRepository.hasCompletedAllCategories fs rs qs uid valid := by
  unfold FlipFeelRepository.hasCompletedAllCategories
    FlipFeelRepository.answeredCategories FlipFeelRepository.completedSessions
  simp [List.filter_cons]

/-- Demonstration questions, one per fixed category, for the C8 instances. -/
def flipDemoQuestions : List FlipFeelQuestion :=
  [{ question_id := "q1", question_text := "t1", category := "school" },
   { question_id := "q2", question_text := "t2", category := "opposite_sex" },
   { question_id := "q3", question_text := "t3", category := "peers" },
   { question_id := "q4", question_text := "t4", category := "family" },
   { question_id := "q5", question_text := "t5", category := "crises" },
   { question_id := "q6", question_text := "t6", category := "emotions" },
   { question_id := "q7", question_text := "t7", category := "recreation" }]

/-- One completed session of user `u`. -/
def flipDemoSession : FlipFeel :=
  { flip_feel_id := "s1", user_id := "u", started_at := some 0,
    finished_at := some 0 }

/-- Responses covering six of the seven categories. -/
def flipDemoResponses6 : List FlipFeelResponse :=
  [{ response_id := "r1", flip_feel_id := "s1", question_id := "q1",
     choice_id := "c1" },
   { response_id := "r2", flip_feel_id := "s1", question_id := "q2",
     choice_id := "c1" },
   { response_id := "r3", flip_feel_id := "s1", question_id := "q3",
     choice_id := "c1" },
   { response_id := "r4", flip_feel_id := "s1", question_id := "q4",
     choice_id := "c1" },
   { response_id := "r5", flip_feel_id := "s1", question_id := "q5",
     choice_id := "c1" },
   { response_id := "r6", flip_feel_id := "s1", question_id := "q6",
     choice_id := "c1" }]

/-- Responses covering all seven categories, with a repeat in the first. -/
def flipDemoResponses8 : List FlipFeelResponse :=
  flipDemoResponses6 ++
    [{ response_id := "r7", flip_feel_id := "s1", question_id := "q7",
       choice_id := "c1" },
     { response_id := "r8", flip_feel_id := "s1", question_id := "q1",
       choice_id := "c2" }]

/-- Claim C8: `hasCompletedAllCategories` holds exactly when the distinct
categories of `categorySet` answered across the user's completed sessions
number at least the size of `categorySet`; a joined category comes from a
completed session (`finished_at` non-null) of the user; sessions without a
completion timestamp contribute nothing; six of the seven fixed categories
give `false` and all seven (with a repeated category) give `true`. -/
theorem hasCompletedAllCategories_coverage :
    (∀ (fs : List FlipFeel) (rs : List FlipFeelResponse)
        (qs : List FlipFeelQuestion) (uid : String) (valid : List String),
      FlipFeelRepository.hasCompletedAllCategories fs rs qs uid valid = true ↔
        valid.length ≤
          (FlipFeelRepository.answeredCategories fs rs qs uid valid).card)
  ∧ (∀ (fs : List FlipFeel) (rs : List FlipFeelResponse)
        (qs : List FlipFeelQuestion) (uid : String) (valid : List String)
        (c : String),
      c ∈ FlipFeelRepository.answeredCategories fs rs qs uid valid ↔
        (c ∈ valid ∧ ∃ f ∈ fs, f.user_id = uid ∧ f.finished_at ≠ none ∧
          ∃ r ∈ rs, r.flip_feel_id = f.flip_feel_id ∧
          ∃ q ∈ qs, q.question_id = r.question_id ∧ q.category = c))
  ∧ (∀ (fid u : String) (st : Option Int) (fs : List FlipFeel)
        (rs : List FlipFeelResponse) (qs : List FlipFeelQuestion)
        (uid : String) (valid : List String),
      FlipFeelRepository.hasCompletedAllCategories
          ({ flip_feel_id := fid, user_id := u, started_at := st,
             finished_at := none } :: fs) rs qs uid valid
        = FlipFeelRepository.hasCompletedAllCategories fs rs qs uid valid)
  ∧ (FlipFeelRepository.hasCompletedAllCategories [flipDemoSession]
        flipDemoResponses6 flipDemoQuestions "u"
        BadgeWorkerService.validCategories = false
     ∧ FlipFeelRepository.hasCompletedAllCategories [flipDemoSession]
        flipDemoResponses8 flipDemoQuestions "u"
        BadgeWorkerService.validCategories = true) := by
  refine ⟨fun fs rs qs uid valid => ?_, mem_answeredCategories,
    hasCompletedAllCategories_skip_unfinished, by decide, by decide⟩
  unfold FlipFeelRepository.hasCompletedAllCategories
  exact decide_eq_true_iff
